import Mathlib

/-!
Verification development for the route-rs repository: shallow embeddings of
the graphgen `indent` helper, the `MtransformNComposite` builder of the
runtime, and the `HandleIpv4` link builder of the pi-home-router example,
with theorems settling the specification claims about them.
-/

set_option autoImplicit false

namespace RouteRs

/-- Rust strings of `route-rs-graphgen/src/codegen.rs` are modelled as lists
of characters. -/
abbrev Text := List Char

/-- Embeds `text.split('\n')` from `codegen::indent`: splits a character list
at every newline character; the newline separators are consumed. -/
def splitOnNl : Text → List Text
  | [] => [[]]
  | c :: cs =>
    if c = '\n' then [] :: splitOnNl cs
    else
      match splitOnNl cs with
      | [] => [[c]]
      | l :: ls => (c :: l) :: ls

/-- Tail part of `lines2.join("\n")`: a newline before every further piece. -/
def joinNlAux : List Text → Text
  | [] => []
  | l :: ls => '\n' :: (l ++ joinNlAux ls)

/-- Embeds `lines2.join("\n")` from `codegen::indent`. -/
def joinNl : List Text → Text
  | [] => []
  | l :: ls => l ++ joinNlAux ls

/-- Embeds `codegen::indent`: split the text on newlines, prepend the
indentation to every non-empty line, leave empty lines unchanged, and rejoin
with newlines. -/
def indent (indentation : Text) (text : Text) : Text :=
  joinNl ((splitOnNl text).map fun l => if l = [] then l else indentation ++ l)

/-- Builder state of `MtransformNComposite<E>`
(`route-rs-runtime/src/composite/m_transform_n_composite.rs`). `Stream`
stands for `PacketStream<E::Input>` and `Elem` for the element type `E`. -/
structure MtransformNComposite (Stream Elem : Type) where
  in_streams : Option (List Stream)
  element : Option Elem
  join_queue_capacity : Nat
  clone_queue_capacity : Nat
  num_egressors : Option Nat

/-- Embeds `MtransformNComposite::new`. -/
def MtransformNComposite.new {Stream Elem : Type} : MtransformNComposite Stream Elem :=
  { in_streams := none
    element := none
    join_queue_capacity := 10
    clone_queue_capacity := 10
    num_egressors := none }

/-- Embeds the consuming setter `MtransformNComposite::join_queue_capacity`;
the `assert!` panic is modelled as `Except.error` with the panic message. -/
def MtransformNComposite.join_queue_capacity_set {Stream Elem : Type}
    (self : MtransformNComposite Stream Elem) (queue_capacity : Nat) :
    Except String (MtransformNComposite Stream Elem) :=
  if 1 ≤ queue_capacity ∧ queue_capacity ≤ 1000 then
    .ok { self with join_queue_capacity := queue_capacity }
  else
    .error ("join_queue_capacity: " ++ toString queue_capacity ++
      " must be in range 1..=1000")

/-- Embeds the consuming setter `MtransformNComposite::clone_queue_capacity`. -/
def MtransformNComposite.clone_queue_capacity_set {Stream Elem : Type}
    (self : MtransformNComposite Stream Elem) (queue_capacity : Nat) :
    Except String (MtransformNComposite Stream Elem) :=
  if 1 ≤ queue_capacity ∧ queue_capacity ≤ 1000 then
    .ok { self with clone_queue_capacity := queue_capacity }
  else
    .error ("clone_queue_capacity: " ++ toString queue_capacity ++
      " must be in range 1..=1000")

/-- Embeds the consuming setter `MtransformNComposite::num_egressors`; the
source asserts `num_egressors <= 1000` first and `num_egressors != 0` second. -/
def MtransformNComposite.num_egressors_set {Stream Elem : Type}
    (self : MtransformNComposite Stream Elem) (n : Nat) :
    Except String (MtransformNComposite Stream Elem) :=
  if 1000 < n then
    .error ("compsite num_egressors: " ++ toString n ++ " > 1000")
  else if n = 0 then
    .error "num_egressors must be non-zero"
  else
    .ok { self with num_egressors := some n }

/-- Embeds `MtransformNComposite::ingressors` from the `LinkBuilder` impl;
note the source validates only the length and overwrites `in_streams`
unconditionally. -/
def MtransformNComposite.ingressors_set {Stream Elem : Type}
    (self : MtransformNComposite Stream Elem) (in_streams : List Stream) :
    Except String (MtransformNComposite Stream Elem) :=
  if 1 < in_streams.length ∧ in_streams.length ≤ 1000 then
    .ok { self with in_streams := some in_streams }
  else
    .error ("Input streams " ++ toString in_streams.length ++ " not in 2..=1000")

/-- Embeds `MtransformNComposite::element` from the `ElementLinkBuilder` impl;
it performs no check and overwrites the slot. -/
def MtransformNComposite.element_set {Stream Elem : Type}
    (self : MtransformNComposite Stream Elem) (e : Elem) :
    MtransformNComposite Stream Elem :=
  { self with element := some e }

/-- Embeds `MtransformNComposite::build_link`. The three internal stage
builders (`JoinLink`, `SyncLinkBuilder`, `CloneLink`), whose code is outside
this repository snapshot, are taken as parameters: `joinLinkBuild` consumes
the ingress streams and the join queue capacity, `syncLinkBuild` consumes the
join egressor and the element, `cloneLinkBuild` consumes the sync egressor,
the clone queue capacity and the egressor count; each returns its runnables
and its egressor(s). The source checks `in_streams`, then `num_egressors`,
then `element`, and finally extends the clone runnables with the join
runnables and then the sync runnables. -/
def MtransformNComposite.build_link {Stream SOut Elem R : Type}
    (self : MtransformNComposite Stream Elem)
    (joinLinkBuild : List Stream → Nat → List R × Stream)
    (syncLinkBuild : Stream → Elem → List R × SOut)
    (cloneLinkBuild : SOut → Nat → Nat → List R × List SOut) :
    Except String (List R × List SOut) :=
  match self.in_streams with
  | none => .error "Cannot build link! Missing input stream"
  | some ins =>
    match self.num_egressors with
    | none => .error "Cannot build link! Missing number of num_egressors"
    | some n =>
      match self.element with
      | none => .error "Cannot build link! Missing element"
      | some e =>
        let join := joinLinkBuild ins self.join_queue_capacity
        let sync := syncLinkBuild join.2 e
        let clone := cloneLinkBuild sync.2 self.clone_queue_capacity n
        .ok (clone.1 ++ join.1 ++ sync.1, clone.2)

/-- IPv4 address, modelling `std::net::Ipv4Addr` as four octet values. -/
structure Ipv4Addr where
  o1 : Nat
  o2 : Nat
  o3 : Nat
  o4 : Nat

/-- IPv4 CIDR block, modelling `cidr::Ipv4Cidr` as a base address plus a
network length. -/
structure Ipv4Cidr where
  addr : Ipv4Addr
  network_length : Nat

/-- Builder state of `HandleIpv4`
(`examples/pi-home-router/src/ipv4/handle_ipv4.rs`); `Stream` stands for
`PacketStream<InterfaceAnnotated<Ipv4Packet>>`. -/
structure HandleIpv4 (Stream : Type) where
  in_stream : Option Stream
  wan_ip : Option Ipv4Addr
  lan_ip : Option Ipv4Addr
  lan_subnet : Option Ipv4Cidr

/-- Embeds `HandleIpv4::new`. -/
def HandleIpv4.new {Stream : Type} : HandleIpv4 Stream :=
  { in_stream := none, wan_ip := none, lan_ip := none, lan_subnet := none }

/-- Embeds the consuming setter `HandleIpv4::wan_ip`; the `panic!` on a
second set is modelled as `Except.error` with the panic message. -/
def HandleIpv4.wan_ip_set {Stream : Type} (self : HandleIpv4 Stream)
    (wan_ip : Ipv4Addr) : Except String (HandleIpv4 Stream) :=
  match self.wan_ip with
  | none => .ok { self with wan_ip := some wan_ip }
  | some _ => .error "HandleIPv4 takes only one wan_ip"

/-- Embeds the consuming setter `HandleIpv4::lan_ip`. -/
def HandleIpv4.lan_ip_set {Stream : Type} (self : HandleIpv4 Stream)
    (lan_ip : Ipv4Addr) : Except String (HandleIpv4 Stream) :=
  match self.lan_ip with
  | none => .ok { self with lan_ip := some lan_ip }
  | some _ => .error "HandleIPv4 takes only one lan_ip"

/-- Embeds the consuming setter `HandleIpv4::lan_subnet`. -/
def HandleIpv4.lan_subnet_set {Stream : Type} (self : HandleIpv4 Stream)
    (lan_subnet : Ipv4Cidr) : Except String (HandleIpv4 Stream) :=
  match self.lan_subnet with
  | none => .ok { self with lan_subnet := some lan_subnet }
  | some _ => .error "HandleIPv4 takes only one lan_subnet"

/-- Embeds `HandleIpv4::ingressor` from the `LinkBuilder` impl. -/
def HandleIpv4.ingressor_set {Stream : Type} (self : HandleIpv4 Stream)
    (in_stream : Stream) : Except String (HandleIpv4 Stream) :=
  match self.in_stream with
  | none => .ok { self with in_stream := some in_stream }
  | some _ => .error "HandleIPv4 takes only one ingressor"

/-- Embeds `HandleIpv4::ingressors` from the `LinkBuilder` impl: a second set
panics, and a vector of any length other than one panics. -/
def HandleIpv4.ingressors_set {Stream : Type} (self : HandleIpv4 Stream)
    (in_streams : List Stream) : Except String (HandleIpv4 Stream) :=
  if self.in_stream.isSome then
    .error "HandleIPv4 takes only one ingressor"
  else if h : in_streams.length = 1 then
    .ok { self with in_stream := some (in_streams.head (by
      intro hnil
      rw [hnil] at h
      exact absurd h (by simp))) }
  else
    .error "HandleIPv4 takes exactly one ingressor"

/-- The `Interface` enum of the pi-home-router example (`crate::types`). -/
inductive Interface where
  | host
  | lan
  | wan
  | unmarked
deriving DecidableEq

/-- The `FromHostDestSubnet` enum of `handle_ipv4.rs`. -/
inductive FromHostDestSubnet where
  | lan
  | broadcast
  | other
deriving DecidableEq

/-- The `FromLanDestSubnet` enum of `handle_ipv4.rs`. -/
inductive FromLanDestSubnet where
  | myLanIp
  | lan
  | broadcast
  | other
deriving DecidableEq

/-- The `FromLanSrcSubnet` enum of `handle_ipv4.rs`. -/
inductive FromLanSrcSubnet where
  | myLanIp
  | other
deriving DecidableEq

/-- The `FromWanDestSubnet` enum of `handle_ipv4.rs`. -/
inductive FromWanDestSubnet where
  | myWanIp
  | other
deriving DecidableEq

/-- The `FromNatDestSubnet` enum of `handle_ipv4.rs`. -/
inductive FromNatDestSubnet where
  | myLanIp
  | other
deriving DecidableEq

/-- The dispatcher closure installed on `classify_by_inbound_interface` in
`HandleIpv4::build_link`. -/
def classify_by_inbound_interface_dispatcher : Interface → Option Nat
  | .host => some 0
  | .lan => some 1
  | .wan => some 2
  | .unmarked => none

/-- The `num_egressors` configured on `classify_by_inbound_interface`. -/
def classify_by_inbound_interface_num_egressors : Nat := 3

/-- The dispatcher closure installed on `classify_by_dest_subnet_host`. -/
def classify_by_dest_subnet_host_dispatcher : FromHostDestSubnet → Option Nat
  | .lan => some 0
  | .broadcast => some 0
  | .other => some 1

/-- The `num_egressors` configured on `classify_by_dest_subnet_host`. -/
def classify_by_dest_subnet_host_num_egressors : Nat := 2

/-- The dispatcher closure installed on `classify_by_dest_subnet_lan`. -/
def classify_by_dest_subnet_lan_dispatcher : FromLanDestSubnet → Option Nat
  | .myLanIp => some 0
  | .broadcast => some 0
  | .lan => none
  | .other => some 1

/-- The `num_egressors` configured on `classify_by_dest_subnet_lan`. -/
def classify_by_dest_subnet_lan_num_egressors : Nat := 2

/-- The dispatcher closure installed on `classify_by_src_subnet_nat`. -/
def classify_by_src_subnet_nat_dispatcher : FromLanSrcSubnet → Option Nat
  | .myLanIp => some 0
  | .other => some 1

/-- The `num_egressors` configured on `classify_by_src_subnet_nat`. -/
def classify_by_src_subnet_nat_num_egressors : Nat := 2

/-- The dispatcher closure installed on `classify_by_dest_subnet_wan`. -/
def classify_by_dest_subnet_wan_dispatcher : FromWanDestSubnet → Option Nat
  | .myWanIp => some 0
  | .other => none

/-- The `num_egressors` configured on `classify_by_dest_subnet_wan`. -/
def classify_by_dest_subnet_wan_num_egressors : Nat := 1

/-- The dispatcher closure installed on `classify_by_dest_subnet_nat`. -/
def classify_by_dest_subnet_nat_dispatcher : FromNatDestSubnet → Option Nat
  | .myLanIp => some 0
  | .other => some 1

/-- The `num_egressors` configured on `classify_by_dest_subnet_nat`. -/
def classify_by_dest_subnet_nat_num_egressors : Nat := 2

/-- The `InterfaceAnnotated<P>` wrapper of the pi-home-router example:
a packet payload tagged with inbound and outbound interfaces. -/
structure InterfaceAnnotated (P : Type) where
  packet : P
  inbound_interface : Interface
  outbound_interface : Interface
deriving DecidableEq

/-- Modelled from the spec: egress branch `b` of a ClassifyLink receives
exactly the ingress items whose classified category dispatches to `Some(b)`,
in ingress order (spec section 4.1). -/
def classifyBranch {T C : Type} (cl : T → C) (d : C → Option Nat) (b : Nat)
    (xs : List T) : List T :=
  xs.filter fun x => decide (d (cl x) = some b)

/-- Modelled from the spec: a ProcessLink forwards `Some` results of its
Processor in order and drops `None` results (spec section 4.3). -/
def processList {I O : Type} (p : I → Option O) (xs : List I) : List O :=
  xs.filterMap p

/-- Modelled from the spec: the `ByInboundInterface` classifier of the
pi-home-router example classifies a packet by its inbound interface. -/
def byInboundInterface {P : Type} (x : InterfaceAnnotated P) : Interface :=
  x.inbound_interface

/-- Modelled from the spec: the `InterfaceAnnotationSetOutbound` processor
rewrites the outbound interface tag. -/
def interfaceAnnotationSetOutbound {P : Type} (i : Interface)
    (x : InterfaceAnnotated P) : Option (InterfaceAnnotated P) :=
  some { x with outbound_interface := i }

/-- Modelled from the spec: the `InterfaceAnnotationSetInbound` processor
rewrites the inbound interface tag. -/
def interfaceAnnotationSetInbound {P : Type} (i : Interface)
    (x : InterfaceAnnotated P) : Option (InterfaceAnnotated P) :=
  some { x with inbound_interface := i }

/-- Modelled from the spec: the `InterfaceAnnotationDecap` processor strips
the interface annotation, keeping the bare packet. -/
def interfaceAnnotationDecap {P : Type} (x : InterfaceAnnotated P) : Option P :=
  some x.packet

/-- Modelled from the spec: the `InterfaceAnnotationEncap` processor wraps a
bare packet with fixed inbound and outbound interface tags. -/
def interfaceAnnotationEncap {P : Type} (inb outb : Interface) (p : P) :
    Option (InterfaceAnnotated P) :=
  some { packet := p, inbound_interface := inb, outbound_interface := outb }

/-- Modelled from the spec: the `Identity` processor forwards every packet. -/
def identityProcess {P : Type} (p : P) : Option P := some p

/-- The dataflow of `HandleIpv4::build_link` downstream of the first classify
stage, as a function on item lists. Stage semantics (classify branch,
process, join) are the spec-modelled list semantics above; the subnet
classifiers (`ByDestSubnet`, `BySrcSubnet`), whose lookup code is outside
this repository snapshot, and the two join merge orders (spec: cross-line
order unspecified) are parameters. The wiring, dispatchers and processors
follow the source order of `build_link`. -/
def handleIpv4FromBranches {P : Type}
    (cHost : InterfaceAnnotated P → FromHostDestSubnet)
    (cLan : InterfaceAnnotated P → FromLanDestSubnet)
    (cSrcNat : InterfaceAnnotated P → FromLanSrcSubnet)
    (cWan : InterfaceAnnotated P → FromWanDestSubnet)
    (cNatDest : InterfaceAnnotated P → FromNatDestSubnet)
    (joinNat : List (List P) → List P)
    (joinFinal : List (List (InterfaceAnnotated P)) → List (InterfaceAnnotated P))
    (from_host from_lan from_wan : List (InterfaceAnnotated P)) :
    List (InterfaceAnnotated P) :=
  let from_host_to_lan :=
    classifyBranch cHost classify_by_dest_subnet_host_dispatcher 0 from_host
  let from_host_to_wan_annotated :=
    classifyBranch cHost classify_by_dest_subnet_host_dispatcher 1 from_host
  let from_host_to_lan_annotated :=
    processList (interfaceAnnotationSetOutbound Interface.lan) from_host_to_lan
  let from_host_to_wan :=
    processList interfaceAnnotationDecap from_host_to_wan_annotated
  let from_lan_to_host :=
    classifyBranch cLan classify_by_dest_subnet_lan_dispatcher 0 from_lan
  let from_lan_to_wan_annotated :=
    classifyBranch cLan classify_by_dest_subnet_lan_dispatcher 1 from_lan
  let from_lan_to_host_annotated :=
    processList (interfaceAnnotationSetOutbound Interface.host) from_lan_to_host
  let from_lan_to_wan :=
    processList interfaceAnnotationDecap from_lan_to_wan_annotated
  let from_join_host_lan_for_nat := joinNat [from_host_to_wan, from_lan_to_wan]
  let from_nat_encap := processList identityProcess from_join_host_lan_for_nat
  let from_nat_encap_annotated :=
    processList (interfaceAnnotationEncap Interface.lan Interface.wan) from_nat_encap
  let from_host_through_nat :=
    classifyBranch cSrcNat classify_by_src_subnet_nat_dispatcher 0
      from_nat_encap_annotated
  let from_lan_through_nat_annotated :=
    classifyBranch cSrcNat classify_by_src_subnet_nat_dispatcher 1
      from_nat_encap_annotated
  let from_host_through_nat_annotated :=
    processList (interfaceAnnotationSetInbound Interface.host) from_host_through_nat
  let from_wan_to_me_annotated :=
    classifyBranch cWan classify_by_dest_subnet_wan_dispatcher 0 from_wan
  let from_wan_to_me :=
    processList interfaceAnnotationDecap from_wan_to_me_annotated
  let from_nat_decap := processList identityProcess from_wan_to_me
  let from_nat_decap_annotated :=
    processList (interfaceAnnotationEncap Interface.wan Interface.lan) from_nat_decap
  let from_nat_to_host :=
    classifyBranch cNatDest classify_by_dest_subnet_nat_dispatcher 0
      from_nat_decap_annotated
  let from_nat_to_lan_annotated :=
    classifyBranch cNatDest classify_by_dest_subnet_nat_dispatcher 1
      from_nat_decap_annotated
  let from_nat_to_host_annotated :=
    processList (interfaceAnnotationSetOutbound Interface.host) from_nat_to_host
  joinFinal
    [from_host_to_lan_annotated,
     from_host_through_nat_annotated,
     from_lan_through_nat_annotated,
     from_lan_to_host_annotated,
     from_nat_to_lan_annotated,
     from_nat_to_host_annotated]

/-- The full list-level dataflow of `HandleIpv4::build_link`: classify the
input by inbound interface into the host, lan and wan branches, then run the
downstream graph. -/
def handleIpv4Output {P : Type}
    (cHost : InterfaceAnnotated P → FromHostDestSubnet)
    (cLan : InterfaceAnnotated P → FromLanDestSubnet)
    (cSrcNat : InterfaceAnnotated P → FromLanSrcSubnet)
    (cWan : InterfaceAnnotated P → FromWanDestSubnet)
    (cNatDest : InterfaceAnnotated P → FromNatDestSubnet)
    (joinNat : List (List P) → List P)
    (joinFinal : List (List (InterfaceAnnotated P)) → List (InterfaceAnnotated P))
    (input : List (InterfaceAnnotated P)) : List (InterfaceAnnotated P) :=
  handleIpv4FromBranches cHost cLan cSrcNat cWan cNatDest joinNat joinFinal
    (classifyBranch byInboundInterface classify_by_inbound_interface_dispatcher 0 input)
    (classifyBranch byInboundInterface classify_by_inbound_interface_dispatcher 1 input)
    (classifyBranch byInboundInterface classify_by_inbound_interface_dispatcher 2 input)

/-- A sample join-stage builder over `Nat` data, used to evaluate
`build_link` on concrete inputs. -/
def joinLinkBuild0 : List Nat → Nat → List Nat × Nat :=
  fun ins c => ([1], ins.length + c)

/-- A sample sync-stage builder over `Nat` data. -/
def syncLinkBuild0 : Nat → Nat → List Nat × Nat :=
  fun s e => ([2], s + e)

/-- A sample clone-stage builder over `Nat` data, producing the requested
number of egressors. -/
def cloneLinkBuild0 : Nat → Nat → Nat → List Nat × List Nat :=
  fun s _ m => ([3], List.replicate m s)

/-- A concrete composite builder with the ingress-streams slot unset. -/
def mtncMissingIngress : MtransformNComposite Nat Nat :=
  { in_streams := none
    element := some 7
    join_queue_capacity := 10
    clone_queue_capacity := 10
    num_egressors := some 2 }

/-- A concrete composite builder whose ingress-streams slot is already set. -/
def mtncWithIngress : MtransformNComposite Nat Nat :=
  { in_streams := some [0]
    element := none
    join_queue_capacity := 10
    clone_queue_capacity := 10
    num_egressors := none }

/-- A concrete `HandleIpv4` builder with every slot already set. -/
def hipv4Full : HandleIpv4 Nat :=
  { in_stream := some 0
    wan_ip := some ⟨192, 0, 2, 1⟩
    lan_ip := some ⟨10, 0, 21, 67⟩
    lan_subnet := some ⟨⟨10, 0, 21, 64⟩, 26⟩ }

/-- A sample host-branch subnet classifier over `Nat` payloads. -/
def cHost0 : InterfaceAnnotated Nat → FromHostDestSubnet := fun _ => .other

/-- A sample lan-branch subnet classifier over `Nat` payloads. -/
def cLan0 : InterfaceAnnotated Nat → FromLanDestSubnet := fun _ => .other

/-- A sample post-NAT source-subnet classifier over `Nat` payloads. -/
def cSrcNat0 : InterfaceAnnotated Nat → FromLanSrcSubnet := fun _ => .other

/-- A sample wan-branch subnet classifier over `Nat` payloads. -/
def cWan0 : InterfaceAnnotated Nat → FromWanDestSubnet := fun _ => .other

/-- A sample post-NAT destination-subnet classifier over `Nat` payloads. -/
def cNatDest0 : InterfaceAnnotated Nat → FromNatDestSubnet := fun _ => .other

theorem splitOnNl_ne_nil (cs : Text) : splitOnNl cs ≠ [] := by
  cases cs with
  | nil => simp [splitOnNl]
  | cons c cs =>
    simp only [splitOnNl]
    split
    · simp
    · cases h : splitOnNl cs <;> simp

theorem nl_not_mem_of_mem_splitOnNl (cs : Text) :
    ∀ l ∈ splitOnNl cs, '\n' ∉ l := by
  induction cs with
  | nil =>
    intro l hl
    simp [splitOnNl] at hl
    simp [hl]
  | cons c cs ih =>
    intro l hl
    simp only [splitOnNl] at hl
    by_cases hc : c = '\n'
    · rw [if_pos hc] at hl
      rcases List.mem_cons.mp hl with h | h
      · simp [h]
      · exact ih l h
    · rw [if_neg hc] at hl
      rcases hsplit : splitOnNl cs with _ | ⟨m, ms⟩
      · exact absurd hsplit (splitOnNl_ne_nil cs)
      · rw [hsplit] at hl
        rcases List.mem_cons.mp hl with h | h
        · subst h
          intro hmem
          rcases List.mem_cons.mp hmem with h | h
          · exact hc h.symm
          · exact ih m (hsplit ▸ List.mem_cons_self m ms) h
        · exact ih l (hsplit ▸ List.mem_cons_of_mem m h)

theorem joinNlAux_eq (ls : List Text) (h : ls ≠ []) :
    joinNlAux ls = '\n' :: joinNl ls := by
  cases ls with
  | nil => exact absurd rfl h
  | cons l ls => simp [joinNlAux, joinNl]

theorem joinNl_splitOnNl (cs : Text) : joinNl (splitOnNl cs) = cs := by
  induction cs with
  | nil => simp [splitOnNl, joinNl, joinNlAux]
  | cons c cs ih =>
    simp only [splitOnNl]
    by_cases hc : c = '\n'
    · rw [if_pos hc, joinNl, joinNlAux_eq _ (splitOnNl_ne_nil cs), ih, hc]
      simp
    · rw [if_neg hc]
      rcases hsplit : splitOnNl cs with _ | ⟨m, ms⟩
      · exact absurd hsplit (splitOnNl_ne_nil cs)
      · rw [hsplit] at ih
        simpa [joinNl] using congrArg (c :: ·) ih

theorem splitOnNl_of_no_nl (l : Text) (h : '\n' ∉ l) : splitOnNl l = [l] := by
  induction l with
  | nil => simp [splitOnNl]
  | cons c cs ih =>
    have hc : ¬ c = '\n' := fun hc => h (hc ▸ List.mem_cons_self c cs)
    have hcs : '\n' ∉ cs := fun hmem => h (List.mem_cons_of_mem c hmem)
    simp only [splitOnNl, if_neg hc, ih hcs]

theorem splitOnNl_append_nl (l cs : Text) (h : '\n' ∉ l) :
    splitOnNl (l ++ '\n' :: cs) = l :: splitOnNl cs := by
  induction l with
  | nil => simp [splitOnNl]
  | cons c l ih =>
    have hc : ¬ c = '\n' := fun hc => h (hc ▸ List.mem_cons_self c l)
    have hl : '\n' ∉ l := fun hmem => h (List.mem_cons_of_mem c hmem)
    simp only [List.cons_append, splitOnNl, if_neg hc]
    rw [show l.append ('\n' :: cs) = l ++ '\n' :: cs from rfl, ih hl]

theorem splitOnNl_joinNl (ls : List Text) (hne : ls ≠ [])
    (h : ∀ l ∈ ls, '\n' ∉ l) : splitOnNl (joinNl ls) = ls := by
  induction ls with
  | nil => exact absurd rfl hne
  | cons l ls ih =>
    cases ls with
    | nil =>
      simp only [joinNl, joinNlAux, List.append_nil]
      exact splitOnNl_of_no_nl l (h l (List.mem_cons_self l []))
    | cons m ms =>
      have hstep : joinNl (l :: m :: ms) = l ++ '\n' :: joinNl (m :: ms) := by
        simp [joinNl, joinNlAux_eq (m :: ms) (by simp)]
      rw [hstep, splitOnNl_append_nl l _ (h l (List.mem_cons_self l (m :: ms))),
        ih (by simp) (fun x hx => h x (List.mem_cons_of_mem l hx))]

/-- Claim C9, counterexample: with the one-character indentation string
consisting of a newline, `indent` applied to the one-line text "a" yields a
text with two lines, so the claimed line-count preservation fails for an
indentation string that itself contains a newline. -/
theorem indent_line_count_counterexample :
    ¬ (splitOnNl (indent ['\n'] ['a'])).length = (splitOnNl (['a'] : Text)).length := by
  decide

/-- Claim C9 (amended: the indentation string must not contain a newline
character): `indent` splits the text on newlines, prepends the indentation to
exactly the non-empty lines, leaves empty lines unchanged, and rejoins with
newlines, so the output has the same number of lines, in the same order, as
the input. -/
theorem indent_preserves_lines (indentation text : Text)
    (h : '\n' ∉ indentation) :
    splitOnNl (indent indentation text) =
      (splitOnNl text).map (fun l => if l = [] then l else indentation ++ l) ∧
    (splitOnNl (indent indentation text)).length = (splitOnNl text).length := by
  have hmain : splitOnNl (indent indentation text) =
      (splitOnNl text).map (fun l => if l = [] then l else indentation ++ l) := by
    rw [indent]
    apply splitOnNl_joinNl
    · intro hnil
      exact splitOnNl_ne_nil text (List.map_eq_nil_iff.mp hnil)
    · intro l hl
      rcases List.mem_map.mp hl with ⟨m, hm, rfl⟩
      by_cases hm0 : m = []
      · simp [hm0]
      · rw [if_neg hm0]
        intro hmem
        rcases List.mem_append.mp hmem with h1 | h1
        · exact h h1
        · exact nl_not_mem_of_mem_splitOnNl text m hm h1
  exact ⟨hmain, by rw [hmain, List.length_map]⟩

/-- Claim C9 witness: the amended claim evaluated on the indentation `" "`
and the two-line text `"a\nb"`. -/
theorem indent_preserves_lines_witness :
    splitOnNl (indent [' '] ['a', '\n', 'b']) =
      (splitOnNl (['a', '\n', 'b'] : Text)).map
        (fun l => if l = [] then l else [' '] ++ l) ∧
    (splitOnNl (indent [' '] ['a', '\n', 'b'])).length =
      (splitOnNl (['a', '\n', 'b'] : Text)).length :=
  indent_preserves_lines [' '] ['a', '\n', 'b'] (by decide)

/-- Claim C10: `indent` with the empty indentation string is the identity on
every text. -/
theorem indent_empty_indentation (text : Text) : indent [] text = text := by
  rw [indent]
  have hmap : (splitOnNl text).map (fun l => if l = [] then l else [] ++ l) =
      splitOnNl text := by
    simp only [List.nil_append, ite_self, List.map_id']
  rw [hmap, joinNl_splitOnNl]

/-- Claim C1: with all three mandatory slots set, `build_link` builds the
join stage from the ingress streams, feeds its egressor and the element to
the sync (process/transform) stage, feeds that stage's egressor to the clone
stage together with `num_egressors`, returns the clone stage's egressors
(of which there are `n` whenever the clone builder honours its count), and
the returned runnables are a permutation — i.e. the multiset union — of the
three stages' runnables. -/
theorem build_link_assembles {Stream SOut Elem R : Type}
    (self : MtransformNComposite Stream Elem)
    (joinLinkBuild : List Stream → Nat → List R × Stream)
    (syncLinkBuild : Stream → Elem → List R × SOut)
    (cloneLinkBuild : SOut → Nat → Nat → List R × List SOut)
    (ins : List Stream) (e : Elem) (n : Nat)
    (hin : self.in_streams = some ins)
    (hel : self.element = some e)
    (hn : self.num_egressors = some n)
    (hclone : ∀ s c m, (cloneLinkBuild s c m).2.length = m) :
    let join := joinLinkBuild ins self.join_queue_capacity
    let sync := syncLinkBuild join.2 e
    let clone := cloneLinkBuild sync.2 self.clone_queue_capacity n
    self.build_link joinLinkBuild syncLinkBuild cloneLinkBuild =
      .ok (clone.1 ++ join.1 ++ sync.1, clone.2) ∧
    clone.2.length = n ∧
    List.Perm (clone.1 ++ join.1 ++ sync.1) (join.1 ++ sync.1 ++ clone.1) := by
  intro join sync clone
  refine ⟨?_, hclone _ _ _, ?_⟩
  · rw [MtransformNComposite.build_link, hin, hn, hel]
  · rw [List.append_assoc]
    exact List.perm_append_comm

/-- Claim C1 witness: the theorem evaluated on a fully configured builder over
`Nat` data with two ingress streams and two egressors. -/
theorem build_link_assembles_witness :
    MtransformNComposite.build_link
      { in_streams := some [5, 6]
        element := some 7
        join_queue_capacity := 10
        clone_queue_capacity := 10
        num_egressors := some 2 }
      joinLinkBuild0 syncLinkBuild0 cloneLinkBuild0 = .ok ([3, 1, 2], [19, 19]) :=
  (build_link_assembles _ joinLinkBuild0 syncLinkBuild0 cloneLinkBuild0
    [5, 6] 7 2 rfl rfl rfl (fun s c m => by simp [cloneLinkBuild0])).1

/-- Claim C2: with any of the three mandatory slots unset, `build_link`
fails: a missing ingress-streams slot, a missing `num_egressors` slot
(ingress set) and a missing element slot (ingress and `num_egressors` set)
each produce their own error message, the three messages are pairwise
distinct, and in every missing-slot case the result is the same error for
any choice of internal stage builders — no stage is constructed. -/
theorem build_link_missing_slot {Stream SOut Elem R SOut2 R2 : Type}
    (self : MtransformNComposite Stream Elem)
    (joinLinkBuild : List Stream → Nat → List R × Stream)
    (syncLinkBuild : Stream → Elem → List R × SOut)
    (cloneLinkBuild : SOut → Nat → Nat → List R × List SOut)
    (joinLinkBuild2 : List Stream → Nat → List R2 × Stream)
    (syncLinkBuild2 : Stream → Elem → List R2 × SOut2)
    (cloneLinkBuild2 : SOut2 → Nat → Nat → List R2 × List SOut2) :
    (self.in_streams = none →
      self.build_link joinLinkBuild syncLinkBuild cloneLinkBuild =
        .error "Cannot build link! Missing input stream") ∧
    (self.in_streams ≠ none → self.num_egressors = none →
      self.build_link joinLinkBuild syncLinkBuild cloneLinkBuild =
        .error "Cannot build link! Missing number of num_egressors") ∧
    (self.in_streams ≠ none → self.num_egressors ≠ none → self.element = none →
      self.build_link joinLinkBuild syncLinkBuild cloneLinkBuild =
        .error "Cannot build link! Missing element") ∧
    ((self.in_streams = none ∨ self.num_egressors = none ∨ self.element = none) →
      ∃ msg,
        self.build_link joinLinkBuild syncLinkBuild cloneLinkBuild = .error msg ∧
        self.build_link joinLinkBuild2 syncLinkBuild2 cloneLinkBuild2 = .error msg) ∧
    (("Cannot build link! Missing input stream" ≠
        "Cannot build link! Missing number of num_egressors") ∧
      ("Cannot build link! Missing input stream" ≠
        "Cannot build link! Missing element") ∧
      ("Cannot build link! Missing number of num_egressors" ≠
        "Cannot build link! Missing element")) := by
  refine ⟨?_, ?_, ?_, ?_, by decide⟩
  · intro h
    rw [MtransformNComposite.build_link, h]
  · intro h1 h2
    rcases hin : self.in_streams with _ | ins
    · exact absurd hin h1
    · rw [MtransformNComposite.build_link, hin, h2]
  · intro h1 h2 h3
    rcases hin : self.in_streams with _ | ins
    · exact absurd hin h1
    rcases hn : self.num_egressors with _ | n
    · exact absurd hn h2
    rw [MtransformNComposite.build_link, hin, hn, h3]
  · intro h
    rcases hin : self.in_streams with _ | ins
    · exact ⟨_, by rw [MtransformNComposite.build_link, hin],
        by rw [MtransformNComposite.build_link, hin]⟩
    rcases hn : self.num_egressors with _ | n
    · exact ⟨_, by rw [MtransformNComposite.build_link, hin, hn],
        by rw [MtransformNComposite.build_link, hin, hn]⟩
    rcases hel : self.element with _ | e
    · exact ⟨_, by rw [MtransformNComposite.build_link, hin, hn, hel],
        by rw [MtransformNComposite.build_link, hin, hn, hel]⟩
    · rcases h with h | h | h <;> simp_all

/-- Claim C2 witness: the theorem evaluated on a builder whose ingress slot is
unset. -/
theorem build_link_missing_slot_witness :
    mtncMissingIngress.build_link joinLinkBuild0 syncLinkBuild0 cloneLinkBuild0 =
      .error "Cannot build link! Missing input stream" :=
  (build_link_missing_slot mtncMissingIngress joinLinkBuild0 syncLinkBuild0
    cloneLinkBuild0 joinLinkBuild0 syncLinkBuild0 cloneLinkBuild0).1 rfl

/-- Claim C3, counterexample: the composite builder's `ingressors` setter,
called on a builder whose ingress slot is already set, succeeds and silently
overwrites the slot instead of failing. -/
theorem ingressors_second_set_succeeds :
    mtncWithIngress.ingressors_set [1, 2] =
      .ok { in_streams := some [1, 2]
            element := none
            join_queue_capacity := 10
            clone_queue_capacity := 10
            num_egressors := none } := by
  rw [mtncWithIngress, MtransformNComposite.ingressors_set, if_pos (by decide)]

/-- Claim C3 (amended: only the `HandleIpv4` builder rejects a second set of
the same slot; the composite builder's setters overwrite an already-set slot
without failing): every `HandleIpv4` setter fails with its \x22takes only
one\x22 error when its slot is already set, while the composite builder's
`ingressors` setter succeeds on any already-configured builder whenever the
ingress count is in range, recording the new streams. -/
theorem second_slot_set_behavior {Stream Stream2 Elem2 : Type}
    (self : HandleIpv4 Stream) (w l : Ipv4Addr) (s : Ipv4Cidr) (st : Stream)
    (b : MtransformNComposite Stream2 Elem2) (ins : List Stream2) :
    (self.wan_ip ≠ none →
      self.wan_ip_set w = .error "HandleIPv4 takes only one wan_ip") ∧
    (self.lan_ip ≠ none →
      self.lan_ip_set l = .error "HandleIPv4 takes only one lan_ip") ∧
    (self.lan_subnet ≠ none →
      self.lan_subnet_set s = .error "HandleIPv4 takes only one lan_subnet") ∧
    (self.in_stream ≠ none →
      self.ingressor_set st = .error "HandleIPv4 takes only one ingressor") ∧
    (self.in_stream ≠ none →
      self.ingressors_set [st] = .error "HandleIPv4 takes only one ingressor") ∧
    (1 < ins.length → ins.length ≤ 1000 →
      b.ingressors_set ins = .ok { b with in_streams := some ins }) := by
  refine ⟨?_, ?_, ?_, ?_, ?_, ?_⟩
  · intro h
    rcases hw : self.wan_ip with _ | v
    · exact absurd hw h
    · rw [HandleIpv4.wan_ip_set, hw]
  · intro h
    rcases hl : self.lan_ip with _ | v
    · exact absurd hl h
    · rw [HandleIpv4.lan_ip_set, hl]
  · intro h
    rcases hs : self.lan_subnet with _ | v
    · exact absurd hs h
    · rw [HandleIpv4.lan_subnet_set, hs]
  · intro h
    rcases hi : self.in_stream with _ | v
    · exact absurd hi h
    · rw [HandleIpv4.ingressor_set, hi]
  · intro h
    rcases hi : self.in_stream with _ | v
    · exact absurd hi h
    · rw [HandleIpv4.ingressors_set, hi]
      rfl
  · intro h1 h2
    rw [MtransformNComposite.ingressors_set, if_pos ⟨h1, h2⟩]

/-- Claim C3 witness: the amended claim evaluated on a fully configured
`HandleIpv4` builder whose `wan_ip` slot is set. -/
theorem second_slot_set_behavior_witness :
    hipv4Full.wan_ip_set ⟨1, 2, 3, 4⟩ =
      .error "HandleIPv4 takes only one wan_ip" :=
  (second_slot_set_behavior hipv4Full ⟨1, 2, 3, 4⟩ ⟨1, 2, 3, 4⟩
    ⟨⟨1, 2, 3, 4⟩, 8⟩ 0 mtncWithIngress [1, 2]).1 (by rw [hipv4Full]; simp)

/-- Claim C4: the composite builder's `ingressors` setter succeeds — and
records the given streams, leaving every other slot unchanged — exactly when
the stream count is in `2..=1000`; any other count fails with the
range-violation error. -/
theorem ingressors_set_iff_range {Stream Elem : Type}
    (self : MtransformNComposite Stream Elem) (ins : List Stream) :
    (2 ≤ ins.length ∧ ins.length ≤ 1000 →
      self.ingressors_set ins = .ok { self with in_streams := some ins }) ∧
    (¬ (2 ≤ ins.length ∧ ins.length ≤ 1000) →
      self.ingressors_set ins =
        .error ("Input streams " ++ toString ins.length ++ " not in 2..=1000")) := by
  constructor
  · rintro ⟨h1, h2⟩
    rw [MtransformNComposite.ingressors_set, if_pos ⟨by omega, h2⟩]
  · intro h
    rw [MtransformNComposite.ingressors_set, if_neg (by omega)]

/-- Claim C4 witness: the setter evaluated on a two-stream vector. -/
theorem ingressors_set_iff_range_witness :
    (MtransformNComposite.new : MtransformNComposite Nat Nat).ingressors_set
        [1, 2] =
      .ok { (MtransformNComposite.new : MtransformNComposite Nat Nat) with
            in_streams := some [1, 2] } :=
  (ingressors_set_iff_range MtransformNComposite.new [1, 2]).1 (by decide)

/-- Claim C5: the composite builder's `num_egressors` setter succeeds — and
records the value — exactly when it is in `1..=1000`; zero fails with the
non-zero assertion message and values above 1000 fail with the range
message. -/
theorem num_egressors_set_iff_range {Stream Elem : Type}
    (self : MtransformNComposite Stream Elem) (n : Nat) :
    (1 ≤ n ∧ n ≤ 1000 →
      self.num_egressors_set n = .ok { self with num_egressors := some n }) ∧
    (n = 0 →
      self.num_egressors_set n = .error "num_egressors must be non-zero") ∧
    (1000 < n →
      self.num_egressors_set n =
        .error ("compsite num_egressors: " ++ toString n ++ " > 1000")) := by
  refine ⟨?_, ?_, ?_⟩
  · rintro ⟨h1, h2⟩
    rw [MtransformNComposite.num_egressors_set, if_neg (by omega), if_neg (by omega)]
  · intro h
    rw [MtransformNComposite.num_egressors_set, if_neg (by omega), if_pos h]
  · intro h
    rw [MtransformNComposite.num_egressors_set, if_pos h]

/-- Claim C5 witness: the setter evaluated at 5. -/
theorem num_egressors_set_iff_range_witness :
    (MtransformNComposite.new : MtransformNComposite Nat Nat).num_egressors_set
        5 =
      .ok { (MtransformNComposite.new : MtransformNComposite Nat Nat) with
            num_egressors := some 5 } :=
  (num_egressors_set_iff_range MtransformNComposite.new 5).1 (by decide)

/-- Claim C6: both queue capacities of a fresh composite builder default
to 10; each capacity setter succeeds exactly when the capacity is in
`1..=1000`, recording it and leaving every other slot — including the other
capacity — unchanged, and fails with its range message otherwise. -/
theorem queue_capacities_default_and_range {Stream Elem : Type}
    (self : MtransformNComposite Stream Elem) (q : Nat) :
    (MtransformNComposite.new : MtransformNComposite Stream Elem).join_queue_capacity = 10 ∧
    (MtransformNComposite.new : MtransformNComposite Stream Elem).clone_queue_capacity = 10 ∧
    (1 ≤ q ∧ q ≤ 1000 →
      self.join_queue_capacity_set q = .ok { self with join_queue_capacity := q }) ∧
    (¬ (1 ≤ q ∧ q ≤ 1000) →
      self.join_queue_capacity_set q =
        .error ("join_queue_capacity: " ++ toString q ++
          " must be in range 1..=1000")) ∧
    (1 ≤ q ∧ q ≤ 1000 →
      self.clone_queue_capacity_set q = .ok { self with clone_queue_capacity := q }) ∧
    (¬ (1 ≤ q ∧ q ≤ 1000) →
      self.clone_queue_capacity_set q =
        .error ("clone_queue_capacity: " ++ toString q ++
          " must be in range 1..=1000")) := by
  refine ⟨rfl, rfl, ?_, ?_, ?_, ?_⟩
  · intro h
    rw [MtransformNComposite.join_queue_capacity_set, if_pos h]
  · intro h
    rw [MtransformNComposite.join_queue_capacity_set, if_neg h]
  · intro h
    rw [MtransformNComposite.clone_queue_capacity_set, if_pos h]
  · intro h
    rw [MtransformNComposite.clone_queue_capacity_set, if_neg h]

/-- Claim C6 witness: the join-capacity setter evaluated at 3. -/
theorem queue_capacities_default_and_range_witness :
    (MtransformNComposite.new : MtransformNComposite Nat Nat).join_queue_capacity_set
        3 =
      .ok { (MtransformNComposite.new : MtransformNComposite Nat Nat) with
            join_queue_capacity := 3 } :=
  (queue_capacities_default_and_range MtransformNComposite.new 3).2.2.1 (by decide)

theorem mem_classifyBranch {T C : Type} {cl : T → C} {d : C → Option Nat}
    {b : Nat} {xs : List T} {y : T} (h : y ∈ classifyBranch cl d b xs) :
    y ∈ xs ∧ d (cl y) = some b := by
  have := List.mem_filter.mp h
  exact ⟨this.1, of_decide_eq_true this.2⟩

theorem not_mem_classifyBranch_of_dispatch_none {T C : Type} {cl : T → C}
    {d : C → Option Nat} {b : Nat} {xs : List T} {y : T}
    (h : d (cl y) = none) : y ∉ classifyBranch cl d b xs := by
  intro hmem
  have := (mem_classifyBranch hmem).2
  rw [h] at this
  exact Option.noConfusion this

theorem mem_processList {I O : Type} {p : I → Option O} {xs : List I} {y : O}
    (h : y ∈ processList p xs) : ∃ z ∈ xs, p z = some y :=
  List.mem_filterMap.mp h

theorem inbound_of_setOutbound {P : Type} {i : Interface}
    {z y : InterfaceAnnotated P} (h : interfaceAnnotationSetOutbound i z = some y) :
    y.inbound_interface = z.inbound_interface := by
  rw [interfaceAnnotationSetOutbound] at h
  cases h
  rfl

theorem inbound_of_setInbound {P : Type} {i : Interface}
    {z y : InterfaceAnnotated P} (h : interfaceAnnotationSetInbound i z = some y) :
    y.inbound_interface = i := by
  rw [interfaceAnnotationSetInbound] at h
  cases h
  rfl

theorem inbound_of_encap {P : Type} {inb outb : Interface} {p : P}
    {y : InterfaceAnnotated P} (h : interfaceAnnotationEncap inb outb p = some y) :
    y.inbound_interface = inb := by
  rw [interfaceAnnotationEncap] at h
  cases h
  rfl

theorem inbound_interface_dispatch_zero {i : Interface}
    (h : classify_by_inbound_interface_dispatcher i = some 0) :
    i = Interface.host := by
  cases i <;> simp_all [classify_by_inbound_interface_dispatcher]

theorem inbound_interface_dispatch_one {i : Interface}
    (h : classify_by_inbound_interface_dispatcher i = some 1) :
    i = Interface.lan := by
  cases i <;> simp_all [classify_by_inbound_interface_dispatcher]

theorem handleIpv4FromBranches_inbound {P : Type}
    (cHost : InterfaceAnnotated P → FromHostDestSubnet)
    (cLan : InterfaceAnnotated P → FromLanDestSubnet)
    (cSrcNat : InterfaceAnnotated P → FromLanSrcSubnet)
    (cWan : InterfaceAnnotated P → FromWanDestSubnet)
    (cNatDest : InterfaceAnnotated P → FromNatDestSubnet)
    (joinNat : List (List P) → List P)
    (joinFinal : List (List (InterfaceAnnotated P)) → List (InterfaceAnnotated P))
    (hjoin : ∀ ls (y : InterfaceAnnotated P), y ∈ joinFinal ls → ∃ l ∈ ls, y ∈ l)
    (from_host from_lan from_wan : List (InterfaceAnnotated P))
    (hhost : ∀ z ∈ from_host, z.inbound_interface = Interface.host)
    (hlan : ∀ z ∈ from_lan, z.inbound_interface = Interface.lan)
    (y : InterfaceAnnotated P)
    (hy : y ∈ handleIpv4FromBranches cHost cLan cSrcNat cWan cNatDest
      joinNat joinFinal from_host from_lan from_wan) :
    y.inbound_interface ≠ Interface.unmarked := by
  rw [handleIpv4FromBranches] at hy
  rcases hjoin _ _ hy with ⟨l, hl, hyl⟩
  simp only [List.mem_cons, List.not_mem_nil, or_false] at hl
  rcases hl with rfl | rfl | rfl | rfl | rfl | rfl
  · rcases mem_processList hyl with ⟨z, hz, hzy⟩
    rw [inbound_of_setOutbound hzy,
      hhost z (mem_classifyBranch hz).1]
    intro hcontra
    exact Interface.noConfusion hcontra
  · rcases mem_processList hyl with ⟨z, hz, hzy⟩
    rw [inbound_of_setInbound hzy]
    intro hcontra
    exact Interface.noConfusion hcontra
  · rcases mem_processList (mem_classifyBranch hyl).1 with ⟨z, hz, hzy⟩
    rw [inbound_of_encap hzy]
    intro hcontra
    exact Interface.noConfusion hcontra
  · rcases mem_processList hyl with ⟨z, hz, hzy⟩
    rw [inbound_of_setOutbound hzy,
      hlan z (mem_classifyBranch hz).1]
    intro hcontra
    exact Interface.noConfusion hcontra
  · rcases mem_processList (mem_classifyBranch hyl).1 with ⟨z, hz, hzy⟩
    rw [inbound_of_encap hzy]
    intro hcontra
    exact Interface.noConfusion hcontra
  · rcases mem_processList hyl with ⟨z, hz, hzy⟩
    rcases mem_processList (mem_classifyBranch hz).1 with ⟨w, hw, hwz⟩
    rw [inbound_of_setOutbound hzy, inbound_of_encap hwz]
    intro hcontra
    exact Interface.noConfusion hcontra

/-- Claim C7: every dispatcher installed by `HandleIpv4::build_link` on a
`ClassifyLink` returns, for every category value, either `None` or `Some i`
with `i` strictly below the `num_egressors` configured on that same link, so
the dispatch-index-out-of-range branch is unreachable. -/
theorem dispatchers_within_egressor_range :
    (∀ c i, classify_by_inbound_interface_dispatcher c = some i →
      i < classify_by_inbound_interface_num_egressors) ∧
    (∀ c i, classify_by_dest_subnet_host_dispatcher c = some i →
      i < classify_by_dest_subnet_host_num_egressors) ∧
    (∀ c i, classify_by_dest_subnet_lan_dispatcher c = some i →
      i < classify_by_dest_subnet_lan_num_egressors) ∧
    (∀ c i, classify_by_src_subnet_nat_dispatcher c = some i →
      i < classify_by_src_subnet_nat_num_egressors) ∧
    (∀ c i, classify_by_dest_subnet_wan_dispatcher c = some i →
      i < classify_by_dest_subnet_wan_num_egressors) ∧
    (∀ c i, classify_by_dest_subnet_nat_dispatcher c = some i →
      i < classify_by_dest_subnet_nat_num_egressors) := by
  refine ⟨?_, ?_, ?_, ?_, ?_, ?_⟩ <;>
    (intro c i h
     cases c <;>
       simp_all [classify_by_inbound_interface_dispatcher,
         classify_by_inbound_interface_num_egressors,
         classify_by_dest_subnet_host_dispatcher,
         classify_by_dest_subnet_host_num_egressors,
         classify_by_dest_subnet_lan_dispatcher,
         classify_by_dest_subnet_lan_num_egressors,
         classify_by_src_subnet_nat_dispatcher,
         classify_by_src_subnet_nat_num_egressors,
         classify_by_dest_subnet_wan_dispatcher,
         classify_by_dest_subnet_wan_num_egressors,
         classify_by_dest_subnet_nat_dispatcher,
         classify_by_dest_subnet_nat_num_egressors] <;>
       omega)

/-- Claim C7 witness: three dispatcher evaluations — the inbound-interface
dispatcher at `Host`, the host-destination dispatcher at `Other`, and the
wan-destination dispatcher at `MyWanIp` — land below their links' configured
egress counts. -/
theorem dispatchers_within_egressor_range_witness :
    (0 : Nat) < classify_by_inbound_interface_num_egressors ∧
    (1 : Nat) < classify_by_dest_subnet_host_num_egressors ∧
    (0 : Nat) < classify_by_dest_subnet_wan_num_egressors :=
  ⟨dispatchers_within_egressor_range.1 Interface.host 0 rfl,
   dispatchers_within_egressor_range.2.1 FromHostDestSubnet.other 1 rfl,
   dispatchers_within_egressor_range.2.2.2.2.1 FromWanDestSubnet.myWanIp 0 rfl⟩

/-- Claim C8: a packet whose inbound interface is `Unmarked` is dispatched to
`None` by the first classify stage, is absent from every egress branch of
that stage, and is absent from the final egress stream of the link built by
`HandleIpv4::build_link`, for every input sequence, every choice of subnet
classifiers, every merge order of the intermediate NAT join, and every
non-fabricating merge order of the final join — the packet is silently
discarded, with no error in the data path. -/
theorem unmarked_packets_dropped {P : Type}
    (cHost : InterfaceAnnotated P → FromHostDestSubnet)
    (cLan : InterfaceAnnotated P → FromLanDestSubnet)
    (cSrcNat : InterfaceAnnotated P → FromLanSrcSubnet)
    (cWan : InterfaceAnnotated P → FromWanDestSubnet)
    (cNatDest : InterfaceAnnotated P → FromNatDestSubnet)
    (joinNat : List (List P) → List P)
    (joinFinal : List (List (InterfaceAnnotated P)) → List (InterfaceAnnotated P))
    (hjoin : ∀ ls (y : InterfaceAnnotated P), y ∈ joinFinal ls → ∃ l ∈ ls, y ∈ l)
    (input : List (InterfaceAnnotated P)) (x : InterfaceAnnotated P)
    (hx : x.inbound_interface = Interface.unmarked) :
    classify_by_inbound_interface_dispatcher (byInboundInterface x) = none ∧
    (∀ b, x ∉ classifyBranch byInboundInterface
      classify_by_inbound_interface_dispatcher b input) ∧
    x ∉ handleIpv4Output cHost cLan cSrcNat cWan cNatDest joinNat joinFinal
      input := by
  have hdisp : classify_by_inbound_interface_dispatcher (byInboundInterface x) =
      none := by
    rw [byInboundInterface, hx]
    rfl
  refine ⟨hdisp, fun b => not_mem_classifyBranch_of_dispatch_none hdisp, ?_⟩
  intro hmem
  rw [handleIpv4Output] at hmem
  refine handleIpv4FromBranches_inbound cHost cLan cSrcNat cWan cNatDest
    joinNat joinFinal hjoin _ _ _ ?_ ?_ x hmem hx
  · intro z hz
    exact inbound_interface_dispatch_zero (mem_classifyBranch hz).2
  · intro z hz
    exact inbound_interface_dispatch_one (mem_classifyBranch hz).2

/-- Claim C8 witness: a concrete unmarked packet fed to the concrete pipeline
with concatenation joins is absent from the final egress. -/
theorem unmarked_packets_dropped_witness :
    (⟨0, Interface.unmarked, Interface.unmarked⟩ : InterfaceAnnotated Nat) ∉
      handleIpv4Output cHost0 cLan0 cSrcNat0 cWan0 cNatDest0
        List.flatten List.flatten
        [⟨0, Interface.unmarked, Interface.unmarked⟩,
         ⟨1, Interface.host, Interface.unmarked⟩] :=
  (unmarked_packets_dropped cHost0 cLan0 cSrcNat0 cWan0 cNatDest0
    List.flatten List.flatten (fun _ _ h => List.mem_flatten.mp h)
    [⟨0, Interface.unmarked, Interface.unmarked⟩,
     ⟨1, Interface.host, Interface.unmarked⟩]
    ⟨0, Interface.unmarked, Interface.unmarked⟩ rfl).2.2

end RouteRs
